import Mathlib

/-
Verification of the capacity-planning subsystem of haproxy
(src/include/haproxy/limits.h).

The repository snapshot only carries the public header: the declarations
of compute_ideal_maxpipes, compute_ideal_maxconn, compute_ideal_maxsock,
check_if_maxsock_permitted and raise_rlim_nofile (limits.h, lines 18-26).
The bodies of these functions are not part of the snapshot, so each
function below is modelled from the specification text (spec.md, sections
3, 4.1-4.5 and 6), keeping the header's names and the spec's component
design as the authority.  OS-level state (the boot-time rlimit pair, the
probed memory, the kernel's grant/deny decision on setrlimit) is passed
explicitly as parameters, and the spec's named policy constants
(memory fraction, per-connection cost, reserves, safety margin) are
gathered in a configuration record so the properties can be driven
against any choice of defaults, as section 9 of the spec requires.
-/

namespace HaproxyLimits

/-- Modelled from the spec: DescriptorLimitPair (spec section 3), the
OS-granted soft/hard ceiling pair on simultaneously open descriptors,
as sampled by BootLimitSnapshot.  The spec's invariant soft ≤ hard is
carried as a hypothesis where a theorem needs it. -/
structure DescriptorLimitPair where
  soft : Nat
  hard : Nat
deriving DecidableEq, Repr

/-- Modelled from the spec: the three-way status of an
AttainabilityVerdict (spec section 3). -/
inductive AttainStatus where
  | Attainable
  | NeedsRaise
  | Unattainable
deriving DecidableEq, Repr

/-- Modelled from the spec: AttainabilityVerdict (spec section 3), the
outcome of checking a requested maxsock against a DescriptorLimitPair. -/
structure AttainabilityVerdict where
  status : AttainStatus
  requiredSoft : Nat
deriving DecidableEq, Repr

/-- Modelled from the spec: RaiseResult (spec section 3), the outcome of
a raise attempt; always reports observed before/after state, even on
failure. -/
structure RaiseResult where
  oldLimit : DescriptorLimitPair
  newLimit : DescriptorLimitPair
  succeeded : Bool
deriving DecidableEq, Repr

/-- Modelled from the spec: the named numeric policy constants of the
subsystem (spec sections 4.1-4.4 and 9).  Fractions are carried as
numerator/denominator pairs of naturals so that floor arithmetic is
explicit.  Fields:
listenerReserve - one descriptor per configured listening socket;
housekeepingReserve - fixed constant for logging/health checks/control;
maxpipes - the ideal or operator-overridden maxpipes value;
pipesEnabled - whether pipe-based zero-copy relaying is enabled;
memFracNum/memFracDen - memoryFraction, share of usable memory granted
to connections by the ConnectionCapacityPlanner;
perConnCost - estimated per-connection memory cost in bytes;
pipeFdFracNum/pipeFdFracDen - fraction of the descriptor soft limit
that pipes alone may consume (PipeCapacityPlanner);
pipeMemFracNum/pipeMemFracDen - fraction of usable memory that pipe
buffers may consume (PipeCapacityPlanner);
pipeBufCost - kernel buffer cost of one pipe, in bytes. -/
structure PlannerConfig where
  listenerReserve : Nat
  housekeepingReserve : Nat
  maxpipes : Nat
  pipesEnabled : Bool
  memFracNum : Nat
  memFracDen : Nat
  perConnCost : Nat
  pipeFdFracNum : Nat
  pipeFdFracDen : Nat
  pipeMemFracNum : Nat
  pipeMemFracDen : Nat
  pipeBufCost : Nat
deriving DecidableEq, Repr

/-- Modelled from the spec: the pipe share of the descriptor budget
(spec section 4.3): 2 descriptors per pipe when pipe-based zero-copy
relaying is enabled, nothing otherwise. -/
def pipeReserve (cfg : PlannerConfig) : Nat :=
  if cfg.pipesEnabled then 2 * cfg.maxpipes else 0

/-- Modelled from the spec: the fixed per-process descriptor overhead,
i.e. the value of the SocketBudgetProjector at maxconn = 0
(spec sections 4.3 and 8). -/
def fixedReserve (cfg : PlannerConfig) : Nat :=
  cfg.listenerReserve + pipeReserve cfg + cfg.housekeepingReserve

/-- Modelled from the spec: compute_ideal_maxsock, declared at
limits.h line 20 with body absent from the snapshot; the
SocketBudgetProjector of spec section 4.3.  Accumulates the descriptor
budget for a candidate maxconn: two descriptors per relayed connection
(client side and server side), then the listener reserve, then the pipe
reserve, then the housekeeping reserve. -/
def compute_ideal_maxsock (cfg : PlannerConfig) (maxconn : Nat) : Nat :=
  let s := 2 * maxconn
  let s := s + cfg.listenerReserve
  let s := s + pipeReserve cfg
  s + cfg.housekeepingReserve

/-- Modelled from the spec: the exact algebraic inverse of the
SocketBudgetProjector, used by the ConnectionCapacityPlanner
(spec sections 4.2 and 4.3): the largest maxconn whose projected budget
fits in the given descriptor budget, with natural floor arithmetic. -/
def inverse_maxsock (cfg : PlannerConfig) (budget : Nat) : Nat :=
  (budget - fixedReserve cfg) / 2

/-- Modelled from the spec: the memory bound of the
ConnectionCapacityPlanner (spec section 4.2):
floor(usableMemory * memoryFraction / perConnectionCost). -/
def maxconn_by_mem (cfg : PlannerConfig) (mem : Nat) : Nat :=
  mem * cfg.memFracNum / cfg.memFracDen / cfg.perConnCost

/-- Modelled from the spec: compute_ideal_maxconn, declared at
limits.h line 19 with body absent from the snapshot; the
ConnectionCapacityPlanner of spec section 4.2.  The memory probe is an
Option: none means the probe reported unavailable, in which case the
negative sentinel -1 is returned (spec sections 3, 7 and 8, scenario C).
On success the result is the minimum of the memory bound and of the
inverse projector applied to the boot-time soft descriptor limit,
clamped to the documented minimum of 1 so a zero maxconn is never
produced (spec section 4.2, edge cases, and scenario D). -/
def compute_ideal_maxconn (cfg : PlannerConfig) (memProbe : Option Nat)
    (bootSoft : Nat) : Int :=
  match memProbe with
  | none => -1
  | some mem =>
      let byMem := maxconn_by_mem cfg mem
      let byFd := inverse_maxsock cfg bootSoft
      Int.ofNat (max 1 (min byMem byFd))

/-- Modelled from the spec: compute_ideal_maxpipes, declared at
limits.h line 18 with body absent from the snapshot; the
PipeCapacityPlanner of spec section 4.1.  When the memory probe reports
unavailable the negative sentinel -1 is returned (spec sections 3, 7
and 8, scenario C).  Otherwise the pipe count is capped so that pipes
alone (two descriptors each) stay within the configured fraction of the
descriptor soft limit, and pipe buffer memory stays within the
configured fraction of usable memory. -/
def compute_ideal_maxpipes (cfg : PlannerConfig) (memProbe : Option Nat)
    (bootSoft : Nat) : Int :=
  match memProbe with
  | none => -1
  | some mem =>
      let byFd := bootSoft * cfg.pipeFdFracNum / cfg.pipeFdFracDen / 2
      let byMem := mem * cfg.pipeMemFracNum / cfg.pipeMemFracDen / cfg.pipeBufCost
      Int.ofNat (min byFd byMem)

/-- Modelled from the spec: the AttainabilityChecker of spec section
4.4, which classifies in order: (1) if the requested maxsock plus the
safety margin fits under the soft limit (the spec writes this branch as
maxsock ≤ soft - safetyMargin, read over integers), Attainable;
(2) else if maxsock ≤ hard, NeedsRaise with
requiredSoft = maxsock + safetyMargin; (3) else Unattainable.
requiredSoft is reported uniformly as maxsock + margin; the spec only
constrains it on the NeedsRaise branch. -/
def attainability_check (margin : Nat) (maxsock : Nat)
    (lim : DescriptorLimitPair) : AttainabilityVerdict :=
  if maxsock + margin ≤ lim.soft then
    ⟨AttainStatus.Attainable, maxsock + margin⟩
  else if maxsock ≤ lim.hard then
    ⟨AttainStatus.NeedsRaise, maxsock + margin⟩
  else
    ⟨AttainStatus.Unattainable, maxsock + margin⟩

/-- Modelled from the spec: check_if_maxsock_permitted, declared at
limits.h line 21 with body absent from the snapshot.  The header fixes
its interface to a single int for a given maxsock; per spec section 6
it is the public attainability entry point, so it collapses the
three-way verdict into a binary permitted (1) / not permitted (0)
answer: only an Unattainable budget is refused, since a NeedsRaise one
is still reachable by raising the soft limit toward the hard one. -/
def check_if_maxsock_permitted (margin : Nat) (maxsock : Nat)
    (lim : DescriptorLimitPair) : Int :=
  match (attainability_check margin maxsock lim).status with
  | AttainStatus.Unattainable => 0
  | _ => 1

/-- Modelled from the spec: raise_rlim_nofile, declared at limits.h
line 26 with body absent from the snapshot; the DescriptorLimitRaiser
of spec section 4.5.  It attempts to set the soft descriptor limit to
the requested value, never exceeding the hard limit and never lowering
the current soft value (monotonic increase only); the OS may still deny
the attempt (privilege refusal or hard ceiling reached), which is
modelled by the osGrants parameter.  On denial the observed limits are
returned unchanged with succeeded = false; no abort, no retry.  The
result always carries the re-probed before/after pairs. -/
def raise_rlim_nofile (current : DescriptorLimitPair) (requestedSoft : Nat)
    (osGrants : Bool) : RaiseResult :=
  let target := max current.soft (min requestedSoft current.hard)
  if osGrants then
    ⟨current, ⟨target, current.hard⟩, true⟩
  else
    ⟨current, current, false⟩

/-- Concrete policy configuration used by witnesses and
counterexamples: 1 listener, housekeeping reserve of 2, pipes disabled,
memory fraction 1/2, per-connection cost 10, pipe fractions 1/1 and
pipe buffer cost 1. -/
def cfg0 : PlannerConfig :=
  ⟨1, 2, 0, false, 1, 2, 10, 1, 1, 1, 1, 1⟩

/-- Unfolding lemma: the accumulated budget of compute_ideal_maxsock,
written as a single sum. -/
theorem compute_ideal_maxsock_def (cfg : PlannerConfig) (maxconn : Nat) :
    compute_ideal_maxsock cfg maxconn
      = 2 * maxconn + cfg.listenerReserve + pipeReserve cfg
          + cfg.housekeepingReserve :=
  rfl

/-- Claim C1 (counterexample): the claimed three-way characterisation
fails as stated.  With safety margin 1, maxsock 5 and limits
soft = 0, hard = 5, we have maxsock + margin = 6 > hard = 5, so the
claim demands Unattainable, yet the checker (spec section 4.4, branch
2: else maxsock ≤ hard) classifies it NeedsRaise. -/
theorem attainability_three_way_counterexample :
    ¬ (((attainability_check 1 5 ⟨0, 5⟩).status = AttainStatus.Unattainable)
        ↔ 5 + 1 > 5) := by
  decide

/-- Claim C1 (amended): for every margin, requested maxsock and limit
pair, the checker returns Attainable iff maxsock + margin ≤ soft;
NeedsRaise iff maxsock + margin > soft and maxsock ≤ hard;
Unattainable iff maxsock + margin > soft and maxsock > hard; and the
reported requiredSoft equals maxsock + margin. -/
theorem attainability_check_classifies (margin maxsock : Nat)
    (lim : DescriptorLimitPair) :
    ((attainability_check margin maxsock lim).status = AttainStatus.Attainable
       ↔ maxsock + margin ≤ lim.soft)
    ∧ ((attainability_check margin maxsock lim).status = AttainStatus.NeedsRaise
       ↔ lim.soft < maxsock + margin ∧ maxsock ≤ lim.hard)
    ∧ ((attainability_check margin maxsock lim).status = AttainStatus.Unattainable
       ↔ lim.soft < maxsock + margin ∧ lim.hard < maxsock)
    ∧ (attainability_check margin maxsock lim).requiredSoft = maxsock + margin := by
  unfold attainability_check
  rcases Nat.lt_or_ge lim.soft (maxsock + margin) with h1 | h1
  · rcases Nat.lt_or_ge lim.hard maxsock with h2 | h2
    · rw [if_neg (by omega), if_neg (by omega)]
      refine ⟨?_, ?_, ?_, rfl⟩ <;> simp <;> omega
    · rw [if_neg (by omega), if_pos (by omega)]
      refine ⟨?_, ?_, ?_, rfl⟩ <;> simp <;> omega
  · rw [if_pos (by omega)]
    refine ⟨?_, ?_, ?_, rfl⟩ <;> simp <;> omega

/-- Claim C2: the socket budget projector returns exactly
2*maxconn + listenerReserve + pipeReserve + housekeepingReserve, where
the pipe reserve is 2 * maxpipes exactly when pipe-based zero-copy
relaying is enabled; and its value at maxconn = 0 is the sum of the
three reserves. -/
theorem compute_ideal_maxsock_formula (cfg : PlannerConfig) (maxconn : Nat) :
    compute_ideal_maxsock cfg maxconn
      = 2 * maxconn + cfg.listenerReserve + pipeReserve cfg
          + cfg.housekeepingReserve
    ∧ pipeReserve cfg = (if cfg.pipesEnabled then 2 * cfg.maxpipes else 0)
    ∧ compute_ideal_maxsock cfg 0
      = cfg.listenerReserve + pipeReserve cfg + cfg.housekeepingReserve := by
  refine ⟨rfl, rfl, ?_⟩
  rw [compute_ideal_maxsock_def]
  omega

/-- Claim C3 (counterexample): the claimed equality with the bare
minimum fails as stated.  With configuration cfg0, a successful memory
probe of 0 bytes and boot-time soft limit 20, the minimum of the memory
bound and the inverse projector is 0, but the planner returns 1 (the
documented positive minimum), not 0. -/
theorem maxconn_min_formula_counterexample :
    compute_ideal_maxconn cfg0 (some 0) 20
      ≠ Int.ofNat (min (maxconn_by_mem cfg0 0) (inverse_maxsock cfg0 20)) := by
  decide

/-- Claim C3 (amended): when the memory probe succeeds and the minimum
of floor(usableMemory * memoryFraction / perConnectionCost) and of the
inverse projector at the boot-time soft limit is at least 1, the
planner returns exactly that minimum (below 1 it clamps to 1). -/
theorem compute_ideal_maxconn_min_formula (cfg : PlannerConfig)
    (mem bootSoft : Nat)
    (h : 1 ≤ min (maxconn_by_mem cfg mem) (inverse_maxsock cfg bootSoft)) :
    compute_ideal_maxconn cfg (some mem) bootSoft
      = Int.ofNat (min (maxconn_by_mem cfg mem) (inverse_maxsock cfg bootSoft)) := by
  unfold compute_ideal_maxconn
  have : max 1 (min (maxconn_by_mem cfg mem) (inverse_maxsock cfg bootSoft))
      = min (maxconn_by_mem cfg mem) (inverse_maxsock cfg bootSoft) := by omega
  simp only [this]

/-- Claim C3 (witness): the amended theorem instantiated at cfg0,
memory 100 and boot-time soft limit 20, where the memory bound is 5 and
the inverse projector gives 8, so the planner returns 5. -/
theorem compute_ideal_maxconn_min_formula_witness :
    1 ≤ min (maxconn_by_mem cfg0 100) (inverse_maxsock cfg0 20)
    ∧ compute_ideal_maxconn cfg0 (some 100) 20
      = Int.ofNat (min (maxconn_by_mem cfg0 100) (inverse_maxsock cfg0 20)) :=
  ⟨by decide, compute_ideal_maxconn_min_formula cfg0 100 20 (by decide)⟩

/-- Claim C4: the connection planner never returns 0: for every
configuration, memory probe outcome and boot-time soft limit, the
result is either the negative sentinel -1 (probe unavailable) or at
least 1; in particular a descriptor budget that would force maxconn to
0 yields 1 instead. -/
theorem compute_ideal_maxconn_never_zero (cfg : PlannerConfig)
    (memProbe : Option Nat) (bootSoft : Nat) :
    compute_ideal_maxconn cfg memProbe bootSoft ≠ 0
    ∧ (compute_ideal_maxconn cfg memProbe bootSoft = -1
       ∨ 1 ≤ compute_ideal_maxconn cfg memProbe bootSoft) := by
  cases memProbe with
  | none => exact ⟨show (-1 : Int) ≠ 0 by decide, Or.inl rfl⟩
  | some mem =>
      unfold compute_ideal_maxconn
      constructor
      · simp only [Int.ofNat_eq_coe, ne_eq, Nat.cast_eq_zero]
        omega
      · right
        simp only [Int.ofNat_eq_coe]
        exact_mod_cast Nat.le_max_left 1 _

/-- Claim C5: when the memory probe reports unavailable, both the pipe
capacity planner and the connection capacity planner return the
negative sentinel -1 (in particular a negative value, never 0), for
every configuration and boot-time soft limit. -/
theorem planners_probe_unavailable_sentinel (cfg : PlannerConfig)
    (bootSoft : Nat) :
    compute_ideal_maxpipes cfg none bootSoft = -1
    ∧ compute_ideal_maxconn cfg none bootSoft = -1
    ∧ compute_ideal_maxpipes cfg none bootSoft < 0
    ∧ compute_ideal_maxconn cfg none bootSoft < 0 :=
  ⟨rfl, rfl, show (-1 : Int) < 0 by decide, show (-1 : Int) < 0 by decide⟩

/-- Claim C6: for every raise attempt (granted or denied) on a current
pair with soft ≤ hard, the returned new soft limit is never below the
old soft limit, and the returned new hard limit is never above the
hard ceiling that held before the attempt; moreover the new soft limit
never exceeds that hard ceiling, so the requested soft value is never
applied beyond the hard limit. -/
theorem raise_rlim_nofile_bounds (current : DescriptorLimitPair)
    (req : Nat) (osGrants : Bool) (h : current.soft ≤ current.hard) :
    current.soft ≤ (raise_rlim_nofile current req osGrants).newLimit.soft
    ∧ (raise_rlim_nofile current req osGrants).newLimit.hard ≤ current.hard
    ∧ (raise_rlim_nofile current req osGrants).newLimit.soft ≤ current.hard := by
  unfold raise_rlim_nofile
  cases osGrants <;> simp <;> omega

/-- Claim C6 (witness): the bounds theorem instantiated at current
limits soft = 3, hard = 10, requested soft 7, with the OS granting the
attempt. -/
theorem raise_rlim_nofile_bounds_witness :
    (3 : Nat) ≤ 10
    ∧ ((3 : Nat) ≤ (raise_rlim_nofile ⟨3, 10⟩ 7 true).newLimit.soft
       ∧ (raise_rlim_nofile ⟨3, 10⟩ 7 true).newLimit.hard ≤ 10
       ∧ (raise_rlim_nofile ⟨3, 10⟩ 7 true).newLimit.soft ≤ 10) :=
  ⟨by decide, raise_rlim_nofile_bounds ⟨3, 10⟩ 7 true (by decide)⟩

/-- Claim C7: when the OS denies the raise attempt, the raiser returns
the unchanged current pair as both the observed old and new limits,
together with succeeded = false, for every current pair and requested
value; being a total function it neither terminates the process nor
retries. -/
theorem raise_rlim_nofile_denial (current : DescriptorLimitPair) (req : Nat) :
    (raise_rlim_nofile current req false).newLimit = current
    ∧ (raise_rlim_nofile current req false).oldLimit = current
    ∧ (raise_rlim_nofile current req false).succeeded = false :=
  ⟨rfl, rfl, rfl⟩

/-- Claim C8 (counterexample): the claimed floor relation fails for a
budget below the fixed reserves.  With configuration cfg0 (fixed
reserve 3) and budget 0, the inverse projector yields maxconn 0, whose
projected budget is 3 > 0. -/
theorem maxsock_roundtrip_counterexample :
    ¬ (compute_ideal_maxsock cfg0 (inverse_maxsock cfg0 0) ≤ 0) := by
  decide

/-- Claim C8 (amended): for every descriptor budget b that covers the
fixed reserves (the projector's value at maxconn 0), composing the
inverse projector with the forward projector yields at most b. -/
theorem maxsock_roundtrip_le (cfg : PlannerConfig) (b : Nat)
    (h : fixedReserve cfg ≤ b) :
    compute_ideal_maxsock cfg (inverse_maxsock cfg b) ≤ b := by
  rw [compute_ideal_maxsock_def]
  unfold inverse_maxsock
  unfold fixedReserve at *
  omega

/-- Claim C8 (witness): the floor relation instantiated at cfg0 and
budget 20: the inverse projector gives maxconn 8, whose projected
budget is 19 ≤ 20. -/
theorem maxsock_roundtrip_le_witness :
    fixedReserve cfg0 ≤ 20
    ∧ compute_ideal_maxsock cfg0 (inverse_maxsock cfg0 20) ≤ 20 :=
  ⟨by decide, maxsock_roundtrip_le cfg0 20 (by decide)⟩

/-- Claim C9: the socket budget projector is non-decreasing in maxconn:
for all a ≤ b the descriptor count computed for a is at most the one
computed for b, for every configuration. -/
theorem compute_ideal_maxsock_monotone (cfg : PlannerConfig) (a b : Nat)
    (h : a ≤ b) :
    compute_ideal_maxsock cfg a ≤ compute_ideal_maxsock cfg b := by
  rw [compute_ideal_maxsock_def, compute_ideal_maxsock_def]
  omega

/-- Claim C9 (witness): monotonicity instantiated at cfg0 with
maxconn values 2 ≤ 5. -/
theorem compute_ideal_maxsock_monotone_witness :
    (2 : Nat) ≤ 5
    ∧ compute_ideal_maxsock cfg0 2 ≤ compute_ideal_maxsock cfg0 5 :=
  ⟨by decide, compute_ideal_maxsock_monotone cfg0 2 5 (by decide)⟩

/-- Claim C10: the public entry point check_if_maxsock_permitted
returns a single int used as a binary verdict: for every margin,
maxsock and limit pair its value is 0 or 1, and it is 0 exactly when
the underlying three-way verdict is Unattainable; neither the three-way
status nor the requiredSoft value survives at its interface. -/
theorem check_if_maxsock_permitted_binary (margin maxsock : Nat)
    (lim : DescriptorLimitPair) :
    (check_if_maxsock_permitted margin maxsock lim = 0
     ∨ check_if_maxsock_permitted margin maxsock lim = 1)
    ∧ (check_if_maxsock_permitted margin maxsock lim = 0
       ↔ (attainability_check margin maxsock lim).status
           = AttainStatus.Unattainable) := by
  unfold check_if_maxsock_permitted
  cases h : (attainability_check margin maxsock lim).status <;> simp [h]

end HaproxyLimits
